import Mathlib

/-!
Verification development for the `caesura` FLAC metadata decoder
(`src/caesura/audio.py`).

The Python source is shallowly embedded here:

* a byte stream is a `List Nat` (each element a byte value);
* Python's `file.read(n)` may return fewer than `n` bytes, which is modelled
  by `List.take` / `List.drop` (no error on short reads, exactly as in the
  source);
* Python slices (which clamp silently) are modelled by `slice`;
* direct subscripts `b[i]` (which raise `IndexError` out of range) are
  modelled by `getByte`;
* `int.from_bytes` with the default big-endian order is `fromBE`; the
  little-endian variant used by the Vorbis comment parser is `fromLE`;
* exceptions raised by `load()` are the constructors of `LoadError`;
* `hashlib.md5(...).hexdigest()` is `md5Hex` (a full MD5 implementation,
  since line 515 of the source feeds the 16-byte STREAMINFO trailer to
  `hashlib.md5`).
-/

set_option maxRecDepth 100000

/-- Python `int.from_bytes(bs)` (big-endian, the default from Python 3.11,
which the source relies on). -/
def fromBE (bs : List Nat) : Nat :=
  bs.foldl (fun a b => a * 256 + b) 0

/-- Python `int.from_bytes(bs, byteorder="little")`. -/
def fromLE (bs : List Nat) : Nat :=
  bs.foldr (fun b a => a * 256 + b) 0

/-- Python slicing `l[a:b]` for `0 ≤ a ≤ b` (clamps silently, never raises). -/
def sliceBytes (l : List Nat) (a b : Nat) : List Nat :=
  (l.take b).drop a

/-- An error raised by `FLACAudio.load` or the decoders it calls.  Each
constructor corresponds to one `raise` site (or built-in exception) of the
Python source. -/
inductive LoadError where
  | notAFlacFile            -- "is not a valid FLAC audio file"
  | invalidStreamInfoSize   -- "Invalid STREAMINFO block size"
  | invalidBlockSizeBounds  -- "Invalid minimum or maximum stream block size"
  | invalidApplicationSize  -- "Invalid APPLICATION block size"
  | invalidSeekTableSize    -- "Invalid SEEKTABLE block size"
  | invalidSeekTable        -- "Invalid SEEKTABLE block"
  | cueSheetReservedHeader  -- "Non-zero bits ... of CUESHEET block"
  | cueSheetInvalidMCN      -- "Invalid media catalog number for CD-DA cue sheet"
  | cueSheetTooManyTracks   -- "More than 100 tracks specified"
  | cueSheetLeadInNonCD     -- "Non-zero number of lead-in samples ... non-CD-DA"
  | cueSheetNoTracks        -- "No tracks specified in cue sheet"
  | cueSheetTrackOffset     -- "Invalid offset for track"
  | cueSheetTooManyIndexPoints -- "More than 100 index points specified"
  | cueSheetDuplicateTrackNumber -- "Track with duplicate track number"
  | cueSheetTrackNumberZero -- "Track with track number 0"
  | cueSheetReservedTrack   -- "Non-zero bits ... of CUESHEET_TRACK"
  | cueSheetIndexOffset     -- "Invalid offset for index point"
  | cueSheetFirstIndexNumber -- "First index point ... does not have ... 0 or 1"
  | cueSheetReservedIndex   -- "Non-zero bits ... of CUESHEET_TRACK_INDEX"
  | cueSheetDuplicateIndexNumber -- "Index point with duplicate index point number"
  | cueSheetNonSequentialIndex -- "Non-sequential index point numbers"
  | cueSheetIndexNumberTooBig -- "Index point number greater than 99"
  | cueSheetLeadOut170      -- "Lead-out track does not have track number 170"
  | cueSheetLeadOut255      -- "Lead-out track does not have track number 255"
  | invalidBlockType        -- "Metadata block with invalid block type"
  | indexError              -- Python IndexError (e.g. `file.read(1)[0]` at EOF)
  | unicodeDecodeError      -- Python UnicodeDecodeError from `bytes.decode()`
  | vorbisSplitError        -- ValueError from `field.split("=", 1)` unpacking
  | outOfFuel               -- artifact of the fuelled loop; never reached when
                            -- the fuel exceeds the stream length
deriving DecidableEq, Repr

/-- Python direct subscript `l[i]`: `IndexError` when out of range. -/
def getByte (l : List Nat) (i : Nat) : Except LoadError Nat :=
  if h : i < l.length then .ok (l.get ⟨i, h⟩) else .error .indexError

/-- `bytes.rstrip(b"\x00")` on a byte list. -/
def stripTrailingZeros (l : List Nat) : List Nat :=
  (l.reverse.dropWhile (fun b => b = 0)).reverse

/-- Strict UTF-8 decoding of a byte list, as Python's `bytes.decode()`
(UTF-8, strict): rejects continuation bytes in lead position, overlong
forms, surrogates and values above U+10FFFF. -/
def utf8DecodeList : List Nat → Option (List Char)
  | [] => some []
  | b :: rest =>
    if b < 0x80 then
      match utf8DecodeList rest with
      | some cs => some (Char.ofNat b :: cs)
      | none => none
    else if b < 0xC2 then
      none
    else if b < 0xE0 then
      match rest with
      | b2 :: rest2 =>
        if 0x80 ≤ b2 ∧ b2 < 0xC0 then
          match utf8DecodeList rest2 with
          | some cs => some (Char.ofNat (((b - 0xC0) <<< 6) + (b2 - 0x80)) :: cs)
          | none => none
        else none
      | [] => none
    else if b < 0xF0 then
      match rest with
      | b2 :: b3 :: rest3 =>
        let lo2 := if b = 0xE0 then 0xA0 else 0x80
        let hi2 := if b = 0xED then 0xA0 else 0xC0
        if lo2 ≤ b2 ∧ b2 < hi2 ∧ 0x80 ≤ b3 ∧ b3 < 0xC0 then
          match utf8DecodeList rest3 with
          | some cs =>
            some (Char.ofNat
              (((b - 0xE0) <<< 12) + ((b2 - 0x80) <<< 6) + (b3 - 0x80)) :: cs)
          | none => none
        else none
      | _ => none
    else if b < 0xF5 then
      match rest with
      | b2 :: b3 :: b4 :: rest4 =>
        let lo2 := if b = 0xF0 then 0x90 else 0x80
        let hi2 := if b = 0xF4 then 0x90 else 0xC0
        if lo2 ≤ b2 ∧ b2 < hi2 ∧ 0x80 ≤ b3 ∧ b3 < 0xC0 ∧ 0x80 ≤ b4 ∧ b4 < 0xC0 then
          match utf8DecodeList rest4 with
          | some cs =>
            some (Char.ofNat
              (((b - 0xF0) <<< 18) + ((b2 - 0x80) <<< 12) +
                ((b3 - 0x80) <<< 6) + (b4 - 0x80)) :: cs)
          | none => none
        else none
      | _ => none
    else none

/-- `bytes.decode()` returning the string or `UnicodeDecodeError`. -/
def utf8DecodeE (l : List Nat) : Except LoadError String :=
  match utf8DecodeList l with
  | some cs => .ok (String.mk cs)
  | none => .error .unicodeDecodeError

/-- `str.rstrip("\x00")`. -/
def rstripNull (s : String) : String :=
  String.mk (s.data.reverse.dropWhile (fun c => c = Char.ofNat 0)).reverse

/-- One lowercase hexadecimal digit. -/
def hexChar (n : Nat) : Char :=
  if n < 10 then Char.ofNat (48 + n) else Char.ofNat (87 + n)

/-- Lowercase hexadecimal rendering of a byte list (`bytes.hex()`). -/
def bytesToHex (l : List Nat) : String :=
  String.mk (l.foldr (fun b acc => hexChar ((b >>> 4) &&& 0xF) :: hexChar (b &&& 0xF) :: acc) [])

/-! ### MD5

`FLACAudio.load` calls `hashlib.md5(block_data[18:]).hexdigest()` on the
STREAMINFO trailer, so a faithful embedding needs real MD5 (RFC 1321). -/

/-- The 64 MD5 sine-derived constants. -/
def md5K : List Nat :=
  [0xd76aa478, 0xe8c7b756, 0x242070db, 0xc1bdceee,
   0xf57c0faf, 0x4787c62a, 0xa8304613, 0xfd469501,
   0x698098d8, 0x8b44f7af, 0xffff5bb1, 0x895cd7be,
   0x6b901122, 0xfd987193, 0xa679438e, 0x49b40821,
   0xf61e2562, 0xc040b340, 0x265e5a51, 0xe9b6c7aa,
   0xd62f105d, 0x02441453, 0xd8a1e681, 0xe7d3fbc8,
   0x21e1cde6, 0xc33707d6, 0xf4d50d87, 0x455a14ed,
   0xa9e3e905, 0xfcefa3f8, 0x676f02d9, 0x8d2a4c8a,
   0xfffa3942, 0x8771f681, 0x6d9d6122, 0xfde5380c,
   0xa4beea44, 0x4bdecfa9, 0xf6bb4b60, 0xbebfbc70,
   0x289b7ec6, 0xeaa127fa, 0xd4ef3085, 0x04881d05,
   0xd9d4d039, 0xe6db99e5, 0x1fa27cf8, 0xc4ac5665,
   0xf4292244, 0x432aff97, 0xab9423a7, 0xfc93a039,
   0x655b59c3, 0x8f0ccc92, 0xffeff47d, 0x85845dd1,
   0x6fa87e4f, 0xfe2ce6e0, 0xa3014314, 0x4e0811a1,
   0xf7537e82, 0xbd3af235, 0x2ad7d2bb, 0xeb86d391]

/-- The 64 MD5 per-round left-rotation amounts. -/
def md5S : List Nat :=
  [7, 12, 17, 22, 7, 12, 17, 22, 7, 12, 17, 22, 7, 12, 17, 22,
   5, 9, 14, 20, 5, 9, 14, 20, 5, 9, 14, 20, 5, 9, 14, 20,
   4, 11, 16, 23, 4, 11, 16, 23, 4, 11, 16, 23, 4, 11, 16, 23,
   6, 10, 15, 21, 6, 10, 15, 21, 6, 10, 15, 21, 6, 10, 15, 21]

/-- 32-bit left rotation. -/
def rotl32 (x c : Nat) : Nat :=
  ((x <<< c) ||| (x >>> (32 - c))) &&& 0xFFFFFFFF

/-- Little-endian byte rendering of `n` over `len` bytes. -/
def toLEBytes (n len : Nat) : List Nat :=
  (List.range len).map (fun i => (n >>> (8 * i)) &&& 0xFF)

/-- MD5 padding: append `0x80`, zero bytes to 56 mod 64, then the 64-bit
little-endian bit length. -/
def md5Pad (msg : List Nat) : List Nat :=
  let zeros := (119 - msg.length % 64) % 64
  msg ++ [0x80] ++ List.replicate zeros 0 ++ toLEBytes (msg.length * 8 % 2 ^ 64) 8

/-- Split a padded message (whose length is a multiple of 64) into 64-byte
chunks. -/
def md5Chunks (l : List Nat) : List (List Nat) :=
  (List.range (l.length / 64)).map (fun i => sliceBytes l (64 * i) (64 * i + 64))

/-- One MD5 compression step (step index `i`, state `(a, b, c, d)`,
message words `m`). -/
def md5Step (m : List Nat) (st : Nat × Nat × Nat × Nat) (i : Nat) :
    Nat × Nat × Nat × Nat :=
  let (a, b, c, d) := st
  let fg : Nat × Nat :=
    if i < 16 then ((b &&& c) ||| ((0xFFFFFFFF ^^^ b) &&& d), i)
    else if i < 32 then ((d &&& b) ||| ((0xFFFFFFFF ^^^ d) &&& c), (5 * i + 1) % 16)
    else if i < 48 then (b ^^^ c ^^^ d, (3 * i + 5) % 16)
    else (c ^^^ (b ||| (0xFFFFFFFF ^^^ d)), (7 * i) % 16)
  let f := (fg.1 + a + md5K.getD i 0 + m.getD fg.2 0) &&& 0xFFFFFFFF
  (d, (b + rotl32 f (md5S.getD i 0)) &&& 0xFFFFFFFF, b, c)

/-- Process one 64-byte chunk. -/
def md5Chunk (st : Nat × Nat × Nat × Nat) (chunk : List Nat) :
    Nat × Nat × Nat × Nat :=
  let m := (List.range 16).map (fun j => fromLE (sliceBytes chunk (4 * j) (4 * j + 4)))
  let r := (List.range 64).foldl (md5Step m) st
  ((st.1 + r.1) &&& 0xFFFFFFFF,
   (st.2.1 + r.2.1) &&& 0xFFFFFFFF,
   (st.2.2.1 + r.2.2.1) &&& 0xFFFFFFFF,
   (st.2.2.2 + r.2.2.2) &&& 0xFFFFFFFF)

/-- The 16-byte MD5 digest of a byte list. -/
def md5Bytes (msg : List Nat) : List Nat :=
  let st := (md5Chunks (md5Pad msg)).foldl md5Chunk
    (0x67452301, 0xefcdab89, 0x98badcfe, 0x10325476)
  toLEBytes st.1 4 ++ toLEBytes st.2.1 4 ++ toLEBytes st.2.2.1 4 ++
    toLEBytes st.2.2.2 4

/-- Python `hashlib.md5(msg).hexdigest()`. -/
def md5Hex (msg : List Nat) : String :=
  bytesToHex (md5Bytes msg)

-- `DecidableEq` for `Except`, used to evaluate concrete runs by `decide`.
deriving instance DecidableEq for Except

/-! ### Data model

One structure per decoded record, mirroring the dictionaries and objects
built by `FLACAudio.load`.  An `Option` field models presence or absence of
the corresponding key in the `_metadata` dictionary. -/

/-- The `"STREAMINFO"` dictionary built at lines 503-516 of the source. -/
structure StreamInfo where
  minimum_block_size : Nat
  maximum_block_size : Nat
  minimum_frame_size : Nat
  maximum_frame_size : Nat
  sample_rate : Nat
  n_channels : Nat
  bits_per_sample : Nat
  total_samples : Nat
  md5 : String
deriving DecidableEq, Repr

/-- The `"APPLICATION"` dictionary (lines 530-533). -/
structure ApplicationBlock where
  id : String
  data : List Nat
deriving DecidableEq, Repr

/-- One seek point: `(first_sample, stream_offset, frame_samples)`
(lines 543-552). -/
abbrev SeekPoint := Nat × Nat × Nat

/-- The object built by `VorbisComment.__init__` from a bytestream:
vendor string, raw field count, and the insertion-ordered field multimap. -/
structure VorbisComment where
  vendor : String
  n_fields : Nat
  fields : List (String × List String)
deriving DecidableEq, Repr

/-- One cue-sheet index point (lines 617-630). -/
structure CueIndexPoint where
  offset : Nat
  number : Nat
deriving DecidableEq, Repr

/-- One cue-sheet track (lines 587-633). -/
structure CueTrack where
  offset : Nat
  number : Nat
  isrc : Option String
  audio : Bool
  pre_emphasis : Bool
  n_index_points : Nat
  index_points : List CueIndexPoint
deriving DecidableEq, Repr

/-- The `"CUESHEET"` dictionary (lines 579-634). -/
structure CueSheet where
  media_catalog_number : Option String
  lead_in_samples : Nat
  cd : Bool
  n_tracks : Nat
  tracks : List CueTrack
deriving DecidableEq, Repr

/-- The `_data` attribute of `APICFrame`: a UTF-8 string when
`mime_type == "-->"`, raw bytes otherwise (line 59). -/
inductive PictureData where
  | url (s : String)
  | raw (bs : List Nat)
deriving DecidableEq, Repr

/-- The `APICFrame` object (lines 38-59). -/
structure APICFrame where
  picture_type : Nat
  mime_type : String
  description : String
  width : Nat
  height : Nat
  color_depth : Nat
  n_indexed_colors : Nat
  size : Nat
  data : PictureData
deriving DecidableEq, Repr

/-- The `_metadata` dictionary.  A `none` field means the key is absent. -/
structure Metadata where
  streaminfo : Option StreamInfo := none
  padding : Option Nat := none
  application : Option ApplicationBlock := none
  seektable : Option (List SeekPoint) := none
  vorbis_comment : Option VorbisComment := none
  cuesheet : Option CueSheet := none
  pictures : Option (List APICFrame) := none
deriving DecidableEq, Repr

/-! ### Vorbis comment decoder (`VorbisComment.__init__`, lines 86-127) -/

/-- Python `field.split("=", 1)` on a character list: split at the first
`=`, or `none` when there is no `=` (which makes the tuple unpacking at
line 107/123 raise `ValueError`). -/
def splitEq : List Char → Option (List Char × List Char)
  | [] => none
  | c :: rest =>
    if c = '=' then some ([], rest)
    else
      match splitEq rest with
      | some (k, v) => some (c :: k, v)
      | none => none

/-- Insert one `KEY=value` pair into the field multimap.  With
`dedup = false` (the flag `load` always uses) values accumulate in order;
with `dedup = true` a value already present under the key is dropped
(the dict-of-dicts construction of lines 98-113). -/
def insertField (dedup : Bool) (fields : List (String × List String))
    (key value : String) : List (String × List String) :=
  if (fields.find? (fun kv => kv.1 = key)).isSome then
    fields.map (fun kv =>
      if kv.1 = key then
        (kv.1, if dedup ∧ value ∈ kv.2 then kv.2 else kv.2 ++ [value])
      else kv)
  else
    fields ++ [(key, [value])]

/-- ASCII upper-casing of a string, as `str.upper()` on the field keys
(the source's keys are ASCII; non-ASCII case mapping is not modelled). -/
def upperAscii (s : String) : String :=
  String.mk (s.data.map Char.toUpper)

/-- The field-parsing loop of `VorbisComment.__init__` (lines 99-127):
reads `n` length-prefixed `KEY=value` records starting at `bo`. -/
def vorbisFields (dedup : Bool) (bs : List Nat) :
    Nat → Nat → List (String × List String) →
    Except LoadError (List (String × List String))
  | _, 0, acc => .ok acc
  | bo, n + 1, acc => do
    let flen := fromLE (sliceBytes bs bo (bo + 4))
    let field ← utf8DecodeE (sliceBytes bs (bo + 4) (bo + 4 + flen))
    match splitEq field.data with
    | none => .error .vorbisSplitError
    | some (k, v) =>
      vorbisFields dedup bs (bo + 4 + flen) n
        (insertField dedup acc (upperAscii (String.mk k)) (String.mk v))

/-- `VorbisComment(bytestream, ignore_duplicates=dedup)` for a bytes
argument (lines 86-127). -/
def vorbisFromBytes (dedup : Bool) (bs : List Nat) :
    Except LoadError VorbisComment := do
  let vlen := fromLE (sliceBytes bs 0 4)
  let vendor ← utf8DecodeE (sliceBytes bs 4 (4 + vlen))
  let nf := fromLE (sliceBytes bs (4 + vlen) (4 + vlen + 4))
  let fields ← vorbisFields dedup bs (4 + vlen + 4) nf []
  .ok { vendor, n_fields := nf, fields }

/-! ### Cue-sheet decoder (case 5, lines 565-778)

The Python walrus-style cursor advances are translated into explicit byte
offsets: a track record starts at `bo` and occupies 36 bytes (u64 offset,
u8 number, 12 ISRC bytes, flag byte, 13 reserved bytes, u8 index-point
count) followed by 12 bytes per index point. -/

/-- The index-point comprehension (lines 617-630): `n` records of
{u64 offset, u8 number, 3 reserved bytes} starting at `bo`. -/
def decodeIndexPoints (bd : List Nat) : Nat → Nat →
    Except LoadError (List CueIndexPoint)
  | _, 0 => .ok []
  | bo, n + 1 => do
    let offset := fromBE (sliceBytes bd bo (bo + 8))
    let number ← getByte bd (bo + 8)
    let rest ← decodeIndexPoints bd (bo + 12) n
    .ok ({ offset, number } :: rest)

/-- The track comprehension (lines 587-633): `n` track records starting at
`bo`.  The ISRC field is built exactly as in the source:
`"".join(str(b) for b in block_data[...+1 : ...+13] if b != 0) or None`,
i.e. the *decimal* rendering of each non-zero byte value, concatenated. -/
def decodeCueTracks (bd : List Nat) : Nat → Nat →
    Except LoadError (List CueTrack)
  | _, 0 => .ok []
  | bo, n + 1 => do
    let offset := fromBE (sliceBytes bd bo (bo + 8))
    let number ← getByte bd (bo + 8)
    let isrcStr := String.join
      (((sliceBytes bd (bo + 9) (bo + 21)).filter (fun b => b ≠ 0)).map
        (fun b => toString b))
    let isrc := if isrcStr = "" then none else some isrcStr
    let flag ← getByte bd (bo + 21)
    let audio := flag &&& 0x80 = 0
    let pre_emphasis := flag &&& 0x40 ≠ 0
    let n_index_points ← getByte bd (bo + 35)
    let index_points ← decodeIndexPoints bd (bo + 36) n_index_points
    let rest ← decodeCueTracks bd (bo + 36 + 12 * n_index_points) n
    .ok ({ offset, number, isrc, audio, pre_emphasis, n_index_points,
           index_points } :: rest)

/-- Building the `"CUESHEET"` dictionary (lines 566-634): the reserved-area
check on the 396-byte prefix (gated on `validate`), then the field
extraction. -/
def cueSheetDecode (validate : Bool) (bd : List Nat) :
    Except LoadError CueSheet := do
  if validate then
    let b136 ← getByte bd 136
    if b136 &&& 0x7F ≠ 0 ∨ stripTrailingZeros (sliceBytes bd 137 395) ≠ [] then
      throw .cueSheetReservedHeader
  let n_tracks ← getByte bd 395
  let mcnRaw ← utf8DecodeE (sliceBytes bd 0 128)
  let mcn := rstripNull mcnRaw
  let media_catalog_number := if mcn = "" then none else some mcn
  let lead_in_samples := fromBE (sliceBytes bd 128 136)
  let b136 ← getByte bd 136
  let cd := b136 >>> 7 ≠ 0
  let tracks ← decodeCueTracks bd 396 n_tracks
  .ok { media_catalog_number, lead_in_samples, cd, n_tracks, tracks }

/-- The per-index-point validation loop over `track["index_points"][1:]`
(lines 732-767).  Note that, unlike the first index point of a track, these
later index points get *no* reserved-bytes check; `bo` is advanced by 12
per point all the same.  Returns the byte offset after the track. -/
def validateIndexPoints (cd : Bool) : List CueIndexPoint → List Nat → Nat →
    Nat → Except LoadError Nat
  | [], _, _, bo => .ok bo
  | p :: rest, seen, prev, bo => do
    if cd ∧ p.offset % 588 ≠ 0 then throw .cueSheetIndexOffset
    if p.number ∈ seen then throw .cueSheetDuplicateIndexNumber
    if p.number ≠ prev + 1 then throw .cueSheetNonSequentialIndex
    if p.number > 99 then throw .cueSheetIndexNumberTooBig
    validateIndexPoints cd rest (p.number :: seen) p.number (bo + 12)

/-- The per-track validation loop (lines 664-767), threading the re-walked
byte offset and the set of seen track numbers; returns the *last* track
(the loop variable the code dereferences after the loop, lines 768-778). -/
def validateCueTracks (bd : List Nat) (cd : Bool) : List CueTrack →
    List Nat → Nat → Except LoadError (Option CueTrack)
  | [], _, _ => .ok none
  | t :: rest, seen, bo => do
    if cd then
      if t.offset % 588 ≠ 0 then throw .cueSheetTrackOffset
      if t.n_index_points > 100 then throw .cueSheetTooManyIndexPoints
    if t.number ≠ 0 then
      if t.number ∈ seen then throw .cueSheetDuplicateTrackNumber
    else
      throw .cueSheetTrackNumberZero
    let b21 ← getByte bd (bo + 21)
    if b21 &&& 0x3F ≠ 0 ∨ fromBE (sliceBytes bd (bo + 22) (bo + 35)) ≠ 0 then
      throw .cueSheetReservedTrack
    let bo := bo + 36
    let bo ←
      if t.n_index_points ≠ 0 then
        match t.index_points with
        | [] => throw .indexError
        | first :: restPts => do
          if cd ∧ first.offset % 588 ≠ 0 then throw .cueSheetIndexOffset
          if first.number ≠ 0 ∧ first.number ≠ 1 then
            throw .cueSheetFirstIndexNumber
          if fromBE (sliceBytes bd (bo + 9) (bo + 12)) ≠ 0 then
            throw .cueSheetReservedIndex
          validateIndexPoints cd restPts [first.number] first.number (bo + 12)
      else
        pure bo
    let r ← validateCueTracks bd cd rest (t.number :: seen) bo
    .ok (some (r.getD t))

/-- The whole `if validate:` section for a CUESHEET block
(lines 635-778). -/
def cueSheetValidate (bd : List Nat) (cs : CueSheet) :
    Except LoadError Unit := do
  if cs.cd then
    match cs.media_catalog_number with
    | some mcn =>
      if ¬(mcn.length = 0 ∨ mcn.length = 13) then throw .cueSheetInvalidMCN
    | none => pure ()
    if cs.n_tracks > 100 then throw .cueSheetTooManyTracks
  else
    if cs.lead_in_samples ≠ 0 then throw .cueSheetLeadInNonCD
  if cs.n_tracks = 0 then throw .cueSheetNoTracks
  let last ← validateCueTracks bd cs.cd cs.tracks [] 396
  match last with
  | none => throw .indexError -- `track` unbound after an empty loop
  | some t =>
    if cs.cd then
      if t.number ≠ 170 then throw .cueSheetLeadOut170
      else pure ()
    else if t.number ≠ 255 then throw .cueSheetLeadOut255
    else pure ()

/-! ### Seek table (case 3, lines 534-560) -/

/-- The seek-point comprehension (lines 543-552): `n` points of 18 bytes
each, `(first_sample, stream_offset, frame_samples)`. -/
def parseSeekTable (n : Nat) (bd : List Nat) : List SeekPoint :=
  (List.range n).map (fun i =>
    (fromBE (sliceBytes bd (18 * i) (18 * i + 8)),
     fromBE (sliceBytes bd (18 * i + 8) (18 * i + 16)),
     fromBE (sliceBytes bd (18 * i + 16) (18 * i + 18))))

/-- The `all(...)` generator of lines 553-557: for each adjacent pair the
earlier first-sample number is strictly below the later one, or the later
one is the placeholder `0xFFFFFFFFFFFFFFFF`. -/
def seekTableOK (t : List SeekPoint) : Bool :=
  (t.zip (t.drop 1)).all (fun p =>
    decide (p.1.1 < p.2.1) || decide (p.2.1 = 0xFFFFFFFFFFFFFFFF))

/-! ### Picture decoder (case 6, lines 779-826, and `APICFrame.__init__`) -/

/-- The byte offset just past the `data_size` field: 8 + mime length,
+ 4 + description length, + 20 for the five u32 fields. -/
def pictureDescEnd (bd : List Nat) : Nat :=
  let mimeEnd := 8 + fromBE (sliceBytes bd 4 8)
  mimeEnd + 4 + fromBE (sliceBytes bd mimeEnd (mimeEnd + 4))

/-- The `data=block_data[byte_offset:]` argument of the `APICFrame` call
(line 821). -/
def pictureDataBytes (bd : List Nat) : List Nat :=
  bd.drop (pictureDescEnd bd + 20)

/-- Decoding a PICTURE block body into an `APICFrame` (lines 781-822
together with `APICFrame.__init__`, lines 38-59): big-endian u32 fields,
length-prefixed UTF-8 mime type and description, and the `"-->"` URL
special case for the data payload. -/
def decodePicture (bd : List Nat) : Except LoadError APICFrame :=
  let picture_type := fromBE (sliceBytes bd 0 4)
  let mimeEnd := 8 + fromBE (sliceBytes bd 4 8)
  match utf8DecodeList (sliceBytes bd 8 mimeEnd) with
  | none => .error .unicodeDecodeError
  | some mimeCs =>
    let mime_type := String.mk mimeCs
    let descEnd := pictureDescEnd bd
    match utf8DecodeList (sliceBytes bd (mimeEnd + 4) descEnd) with
    | none => .error .unicodeDecodeError
    | some descCs =>
      let width := fromBE (sliceBytes bd descEnd (descEnd + 4))
      let height := fromBE (sliceBytes bd (descEnd + 4) (descEnd + 8))
      let color_depth := fromBE (sliceBytes bd (descEnd + 8) (descEnd + 12))
      let n_indexed_colors := fromBE (sliceBytes bd (descEnd + 12) (descEnd + 16))
      let sz := fromBE (sliceBytes bd (descEnd + 16) (descEnd + 20))
      let dataBytes := pictureDataBytes bd
      match (if mime_type = "-->" then
               (utf8DecodeList dataBytes).map (fun cs => PictureData.url (String.mk cs))
             else
               some (PictureData.raw dataBytes)) with
      | none => .error .unicodeDecodeError
      | some pd =>
        .ok { picture_type, mime_type, description := String.mk descCs,
              width, height, color_depth, n_indexed_colors,
              size := if sz ≠ 0 then sz else dataBytes.length, data := pd }

/-! ### The block-chain driver (`FLACAudio.load`, lines 471-840)

`loadLoop` is one-to-one with the `while not block_header & 0x80` loop:
each call reads one block header byte (raising `IndexError` at EOF, as
`file.read(1)[0]` does), the 3-byte length, dispatches on the low 7 bits
and either stops (top bit set) or recurses.  The loop is fuelled; the fuel
`bytes.length + 1` used by `load` can never run out because each iteration
consumes at least the header byte. -/

/-- Attach the `_metadata` dictionary as it stands to an inner decoder
error (the dictionary is mutated in place by the source, so it keeps its
partial contents when an exception aborts the loop). -/
def liftE (md : Metadata) : Except LoadError α → Except (LoadError × Metadata) α
  | .ok a => .ok a
  | .error e => .error (e, md)

/-- One pass of the metadata-block loop. -/
def loadLoop (tags_only validate : Bool) :
    Nat → List Nat → Metadata → Except (LoadError × Metadata) Metadata
  | 0, _, md => .error (.outOfFuel, md)
  | fuel + 1, bytes, md => do
    match bytes with
    | [] => .error (.indexError, md) -- `file.read(1)[0]` on b""
    | hb :: rest =>
      let block_size := fromBE (rest.take 3)
      let rest := rest.drop 3
      let step : Except (LoadError × Metadata) (List Nat × Metadata) :=
        match hb &&& 0x7F with
        | 0 =>
          if validate ∧ block_size ≠ 34 then .error (.invalidStreamInfoSize, md)
          else
            let bd := rest.take block_size
            let rest := rest.drop block_size
            if tags_only then .ok (rest, md)
            else
              let minimum_block_size := fromBE (sliceBytes bd 0 2)
              let maximum_block_size := fromBE (sliceBytes bd 2 4)
              if validate ∧ (minimum_block_size < 16 ∨ maximum_block_size < 16) then
                .error (.invalidBlockSizeBounds, md)
              else do
                let b12 ← liftE md (getByte bd 12)
                let b13 ← liftE md (getByte bd 13)
                let si : StreamInfo :=
                  { minimum_block_size, maximum_block_size,
                    minimum_frame_size := fromBE (sliceBytes bd 4 7),
                    maximum_frame_size := fromBE (sliceBytes bd 7 10),
                    sample_rate := fromBE (sliceBytes bd 10 13) >>> 4,
                    n_channels := ((b12 &&& 0x0E) >>> 1) + 1,
                    bits_per_sample := ((b12 &&& 0x01) <<< 4) + ((b13 &&& 0xF0) >>> 4) + 1,
                    total_samples := ((b13 &&& 0x0F) <<< 32) + fromBE (sliceBytes bd 14 18),
                    md5 := md5Hex (bd.drop 18) }
                .ok (rest, { md with streaminfo := some si })
        | 1 =>
          let rest := rest.drop block_size
          if tags_only then .ok (rest, md)
          else .ok (rest, { md with padding := some block_size })
        | 2 =>
          if validate ∧ ((block_size : Int) - 4) % 8 ≠ 0 then
            .error (.invalidApplicationSize, md)
          else
            let bd := rest.take block_size
            let rest := rest.drop block_size
            if tags_only then .ok (rest, md)
            else do
              let id ← liftE md (utf8DecodeE (bd.take 4))
              .ok (rest, { md with application := some { id, data := bd.drop 4 } })
        | 3 =>
          if validate ∧ block_size % 18 ≠ 0 then .error (.invalidSeekTableSize, md)
          else
            let bd := rest.take block_size
            let rest := rest.drop block_size
            if tags_only then .ok (rest, md)
            else
              let t := parseSeekTable (block_size / 18) bd
              let md := { md with seektable := some t }
              if validate ∧ seekTableOK t = false then .error (.invalidSeekTable, md)
              else .ok (rest, md)
        | 4 => do
          let bd := rest.take block_size
          let vc ← liftE md (vorbisFromBytes false bd)
          .ok (rest.drop block_size, { md with vorbis_comment := some vc })
        | 5 =>
          let bd := rest.take block_size
          let rest := rest.drop block_size
          if tags_only then .ok (rest, md)
          else do
            let cs ← liftE md (cueSheetDecode validate bd)
            let md := { md with cuesheet := some cs }
            if validate then liftE md (cueSheetValidate bd cs)
            .ok (rest, md)
        | 6 => do
          let bd := rest.take block_size
          let pic ← liftE md (decodePicture bd)
          let ps := md.pictures.getD []
          .ok (rest.drop block_size,
               { md with pictures := some (if ps.isEmpty then [pic] else ps ++ [pic]) })
        | 127 => .error (.invalidBlockType, md)
        | _ => .ok (rest.drop block_size, md) -- reserved types: warn and skip
      let (rest, md) ← step
      if hb &&& 0x80 ≠ 0 then .ok md
      else loadLoop tags_only validate fuel rest md

/-- `FLACAudio.load` on a fresh object: checks the `fLaC` magic, then runs
the block loop on an initially empty `_metadata` dictionary.  A loop error
carries the partial dictionary (`some md`); a magic failure leaves
`_metadata` unset (`none`). -/
def load (bytes : List Nat) (tags_only validate : Bool) :
    Except (LoadError × Option Metadata) Metadata :=
  if bytes.take 4 ≠ [0x66, 0x4C, 0x61, 0x43] then .error (.notAFlacFile, none)
  else
    match loadLoop tags_only validate (bytes.length + 1) (bytes.drop 4) {} with
    | .ok m => .ok m
    | .error (e, m) => .error (e, some m)

/-- The `_metadata` attribute after a `load()` call (set even when the call
raised mid-loop, since the dictionary is mutated in place). -/
def stateAfterLoad (bytes : List Nat) (tags_only validate : Bool) :
    Option Metadata :=
  match load bytes tags_only validate with
  | .ok m => some m
  | .error (_, st) => st

/-- The `metadata` property (lines 842-846): return the cached `_metadata`
if the attribute exists, otherwise call `load()` first.  Returns the
outcome and the attribute afterwards. -/
def metadataProp (st : Option Metadata) (bytes : List Nat)
    (tags_only validate : Bool) :
    Except LoadError Metadata × Option Metadata :=
  match st with
  | some m => (.ok m, some m)
  | none =>
    match load bytes tags_only validate with
    | .ok m => (.ok m, some m)
    | .error (e, st') => (.error e, st')

/-! ### Concrete inputs for the claims -/

/-- The four magic bytes `fLaC`. -/
def flacMagic : List Nat := [0x66, 0x4C, 0x61, 0x43]

/-- A 34-byte STREAMINFO body with `minimum_block_size = maximum_block_size
= v` and every other byte zero (in particular an all-zero MD5 trailer). -/
def siBody (v : Nat) : List Nat :=
  [0, v, 0, v] ++ List.replicate 30 0

/-- A single-STREAMINFO file whose block has an all-zero 16-byte MD5
trailer. -/
def c1Input : List Nat :=
  flacMagic ++ [0x80, 0, 0, 34] ++ siBody 16

/-- An 18-byte seek point with the given first-sample bytes and all other
bytes zero. -/
def seekPointBytes (sample : List Nat) : List Nat :=
  sample ++ List.replicate 10 0

/-- Big-endian bytes of 44100 over 8 bytes. -/
def sample44100 : List Nat := [0, 0, 0, 0, 0, 0, 0xAC, 0x44]

/-- The placeholder first-sample value, 8 bytes of `0xFF`. -/
def samplePlaceholder : List Nat := List.replicate 8 0xFF

/-- A file with one SEEKTABLE block holding first-sample numbers
`(0, 0xFFFFFFFFFFFFFFFF, 44100)` — the spec scenario with a placeholder in
the middle. -/
def c2Input : List Nat :=
  flacMagic ++ [0x83, 0, 0, 54] ++
    seekPointBytes (List.replicate 8 0) ++
    seekPointBytes samplePlaceholder ++
    seekPointBytes sample44100

/-- A file with one SEEKTABLE block holding first-sample numbers
`(0, 44100, 0xFFFFFFFFFFFFFFFF)` — the placeholder at the end. -/
def c2OkInput : List Nat :=
  flacMagic ++ [0x83, 0, 0, 54] ++
    seekPointBytes (List.replicate 8 0) ++
    seekPointBytes sample44100 ++
    seekPointBytes samplePlaceholder

/-- A file with two STREAMINFO blocks (block sizes 16 and 17). -/
def c3Input : List Nat :=
  flacMagic ++ [0x00, 0, 0, 34] ++ siBody 16 ++ [0x80, 0, 0, 34] ++ siBody 17

/-- A file with two SEEKTABLE blocks (one zero point, then one point with
first sample 5). -/
def c3SeekInput : List Nat :=
  flacMagic ++ [0x03, 0, 0, 18] ++ List.replicate 18 0 ++
    [0x83, 0, 0, 18] ++ seekPointBytes [0, 0, 0, 0, 0, 0, 0, 5]

/-- A file whose only metadata block is an empty PADDING block. -/
def c4Input : List Nat :=
  flacMagic ++ [0x81, 0, 0, 0]

/-- The ISRC bytes of the ASCII string `USRC17607839`. -/
def isrcBytes : List Nat := [85, 83, 82, 67, 49, 55, 54, 48, 55, 56, 51, 57]

/-- A CUESHEET block body: non-CD-DA, one lead-out track numbered 255
carrying the ISRC `USRC17607839` and no index points. -/
def c5CueBody : List Nat :=
  List.replicate 128 0 ++ List.replicate 8 0 ++ [0] ++ List.replicate 258 0 ++
    [1] ++
    (List.replicate 8 0 ++ [255] ++ isrcBytes ++ [0] ++ List.replicate 13 0 ++ [0])

/-- A file with that CUESHEET as its only (last) block (432 = 0x1B0). -/
def c5Input : List Nat :=
  flacMagic ++ [0x85, 0, 1, 0xB0] ++ c5CueBody

/-- A CUESHEET block body: non-CD-DA, one track numbered 255 with two index
points numbered 1 and 2; the first index point's 3 reserved bytes are
`i1r`, the second's are `(r1, r2, r3)`. -/
def c6CueBody (i1r : List Nat) (r1 r2 r3 : Nat) : List Nat :=
  List.replicate 128 0 ++ List.replicate 8 0 ++ [0] ++ List.replicate 258 0 ++
    [1] ++
    (List.replicate 8 0 ++ [255] ++ List.replicate 12 0 ++ [0] ++
      List.replicate 13 0 ++ [2]) ++
    (List.replicate 8 0 ++ [1] ++ i1r) ++
    (List.replicate 8 0 ++ [2] ++ [r1, r2, r3])

/-- A file with that CUESHEET (456 = 0x1C8 bytes), second index point's
reserved bytes `(r1, r2, r3)`, all other reserved areas zero. -/
def c6Input (r1 r2 r3 : Nat) : List Nat :=
  flacMagic ++ [0x85, 0, 1, 0xC8] ++ c6CueBody [0, 0, 0] r1 r2 r3

/-- The same file but with the *first* index point's reserved bytes
non-zero (`[0,0,1]`) and the second's zero. -/
def c6FirstBadInput : List Nat :=
  flacMagic ++ [0x85, 0, 1, 0xC8] ++ c6CueBody [0, 0, 1] 0 0 0

/-- A file whose SEEKTABLE block declares 18 body bytes but the stream ends
after 17 (the last one being `0x07`). -/
def c7Input : List Nat :=
  flacMagic ++ [0x83, 0, 0, 18] ++ List.replicate 16 0 ++ [0x07]

/-- A file that ends right after a non-last block header byte (the 3-byte
length and the body are missing). -/
def c7HeaderInput : List Nat :=
  flacMagic ++ [0x03]

/-- A file that ends inside the 3-byte block length of a last PADDING
block. -/
def c7ShortLenInput : List Nat :=
  flacMagic ++ [0x81, 0x05]

/-- A valid STREAMINFO block followed by a block of invalid type 127:
`load` fails after `_metadata` already holds the STREAMINFO entry. -/
def c8Input : List Nat :=
  flacMagic ++ [0x00, 0, 0, 34] ++ siBody 16 ++ [0x7F, 0, 0, 0]

/-- The UTF-8 bytes of `https://example/cover.jpg` (25 bytes). -/
def urlBytes : List Nat :=
  [104, 116, 116, 112, 115, 58, 47, 47, 101, 120, 97, 109, 112, 108, 101,
   47, 99, 111, 118, 101, 114, 46, 106, 112, 103]

/-- A PICTURE block body with `mime_type = "-->"`, empty description and
the URL bytes as data. -/
def c9Body : List Nat :=
  [0, 0, 0, 3] ++ [0, 0, 0, 3] ++ [45, 45, 62] ++ [0, 0, 0, 0] ++
    [0, 0, 0, 0] ++ [0, 0, 0, 0] ++ [0, 0, 0, 0] ++ [0, 0, 0, 0] ++
    [0, 0, 0, 25] ++ urlBytes

/-- A file with a PICTURE block carrying `c9Body` (60 bytes). -/
def c9Input : List Nat :=
  flacMagic ++ [0x86, 0, 0, 60] ++ c9Body

/-! ### Expected decoded values -/

/-- The STREAMINFO record decoded from `siBody 16`: note the `md5` field is
`hashlib.md5(trailer).hexdigest()`, i.e. the MD5 *hash* of the sixteen zero
trailer bytes. -/
def siRecord16 : StreamInfo :=
  { minimum_block_size := 16, maximum_block_size := 16,
    minimum_frame_size := 0, maximum_frame_size := 0, sample_rate := 0,
    n_channels := 1, bits_per_sample := 1, total_samples := 0,
    md5 := "4ae71336e44bf9bf79d2752e234818a5" }

/-- The cue sheet decoded from `c5CueBody`: the ISRC comes out as the
concatenated decimal values of the bytes of `USRC17607839`. -/
def c5CueSheet : CueSheet :=
  { media_catalog_number := none, lead_in_samples := 0, cd := false,
    n_tracks := 1,
    tracks := [{ offset := 0, number := 255,
                 isrc := some "858382674955544855565157", audio := true,
                 pre_emphasis := false, n_index_points := 0,
                 index_points := [] }] }

/-- The cue sheet decoded from any `c6CueBody` (the reserved bytes do not
appear in the decoded record). -/
def c6CueSheet : CueSheet :=
  { media_catalog_number := none, lead_in_samples := 0, cd := false,
    n_tracks := 1,
    tracks := [{ offset := 0, number := 255, isrc := none, audio := true,
                 pre_emphasis := false, n_index_points := 2,
                 index_points := [{ offset := 0, number := 1 },
                                  { offset := 0, number := 2 }] }] }

/-- The partial `_metadata` dictionary left behind when `load` fails on
`c8Input`: the STREAMINFO entry is already present. -/
def c8Partial : Metadata := { streaminfo := some siRecord16 }

/-- The `APICFrame` decoded from `c9Body`. -/
def c9Pic : APICFrame :=
  { picture_type := 3, mime_type := "-->", description := "", width := 0,
    height := 0, color_depth := 0, n_indexed_colors := 0, size := 25,
    data := .url "https://example/cover.jpg" }

/-! ### Claims -/

/-- C1: the claim says the `md5` field of a decoded STREAMINFO equals the
lowercase hex rendering of the 16 trailer bytes, so an all-zero trailer
should give `"00000000000000000000000000000000"`.  The code instead feeds
the trailer to `hashlib.md5` and stores the digest of the digest: on
`c1Input` (all-zero trailer) the field comes out as the MD5 hash of sixteen
zero bytes, `"4ae71336e44bf9bf79d2752e234818a5"`, not the hex rendering of
the trailer. -/
theorem C1_md5_field_is_hash_of_trailer :
    load c1Input false true = .ok { streaminfo := some siRecord16 } ∧
    md5Hex (List.replicate 16 0) = "4ae71336e44bf9bf79d2752e234818a5" ∧
    bytesToHex (List.replicate 16 0) = "00000000000000000000000000000000" ∧
    siRecord16.md5 ≠ bytesToHex (List.replicate 16 0) := by
  refine ⟨by decide, by decide, by decide, by decide⟩

/-- C3: the claim says a chain with two blocks of the same singleton type
fails with a `DuplicateBlock` error.  `load` has no duplicate check at all —
on `c3Input`, a file with two STREAMINFO blocks, it completes
successfully. -/
theorem C3_no_duplicate_block_error :
    (load c3Input false true).isOk = true := by
  decide

/-- C3 (amended): duplicate singleton blocks are not detected; the later
block's decode simply overwrites the earlier entry in the `_metadata`
dictionary.  With two STREAMINFOs (block-size fields 16 then 17) the result
holds the second one; with two SEEKTABLEs the result holds the second
table. -/
theorem C3_amended_last_singleton_wins :
    load c3Input false true =
      .ok { streaminfo := some { siRecord16 with
              minimum_block_size := 17, maximum_block_size := 17 } } ∧
    load c3SeekInput false true = .ok { seektable := some [(5, 0, 0)] } := by
  refine ⟨by decide, by decide⟩

/-- C4: the claim says a successful `load` always yields a `"STREAMINFO"`
key and that `load` fails when the chain has no STREAMINFO block.  On
`c4Input` — a single empty PADDING block and no STREAMINFO anywhere —
`load` returns successfully and the key is absent. -/
theorem C4_no_streaminfo_required :
    load c4Input false true = .ok { padding := some 0 } ∧
    ({ padding := some 0 } : Metadata).streaminfo = none := by
  refine ⟨by decide, by decide⟩

/-- C4 (amended): `load` performs no STREAMINFO-presence check: it can
return successfully with the `"STREAMINFO"` key absent, both when the chain
has no STREAMINFO block and when `tags_only=true` skips the one it has
(`c1Input` contains a valid STREAMINFO block, yet with `tags_only` the
result dictionary is empty). -/
theorem C4_amended_streaminfo_key_may_be_absent :
    load c1Input true true = .ok {} ∧ ({} : Metadata).streaminfo = none := by
  refine ⟨by decide, by decide⟩

/-- C5: the claim says a CUESHEET track's ISRC field is decoded as the
12-byte ASCII string (zero bytes stripped), so the bytes of `USRC17607839`
should give `"USRC17607839"`.  The code runs `str(b)` over the byte
*values* instead of `chr(b)`, so those bytes decode to the concatenated
decimal rendering `"858382674955544855565157"`. -/
theorem C5_isrc_is_decimal_rendering :
    load c5Input false true = .ok { cuesheet := some c5CueSheet } ∧
    (c5CueSheet.tracks.map (fun t => t.isrc)) =
      [some "858382674955544855565157"] ∧
    some "858382674955544855565157" ≠ some "USRC17607839" := by
  refine ⟨by decide, by decide, by decide⟩

/-- C7: the claim says any short read fails with a `TruncatedStream` error.
On `c7Input` the SEEKTABLE block declares 18 body bytes but only 17 are
present: the reads silently return short, the 2-byte `frame_samples` field
is decoded from the single byte `0x07`, and `load` completes. -/
theorem C7_truncated_body_silently_decoded :
    load c7Input false true = .ok { seektable := some [(0, 0, 7)] } := by
  decide

/-- C7 (amended): there is no `TruncatedStream` error at all.  Reads
silently return fewer bytes: a stream ending right after a non-last block
header dies with a bare `IndexError` (from `file.read(1)[0]`) after having
decoded the zero-length SEEKTABLE that the short length reads produced, and
a stream ending inside the 3-byte length field of a last PADDING block is
decoded successfully. -/
theorem C7_amended_no_truncation_check :
    load c7HeaderInput false true =
      .error (.indexError, some { seektable := some [] }) ∧
    load c7ShortLenInput false true = .ok { padding := some 5 } := by
  refine ⟨by decide, by decide⟩

/-- C8: the claim says that when `load` fails, no partial metadata
aggregate is observable through the `metadata` property.  On `c8Input` the
loop decodes a STREAMINFO block and then hits a type-127 block and raises;
`_metadata` keeps the partially built dictionary, so the next `metadata`
access returns it (it contains the STREAMINFO entry of the failed run). -/
theorem C8_partial_metadata_observable :
    (load c8Input false true).isOk = false ∧
    metadataProp (stateAfterLoad c8Input false true) c8Input false true =
      (.ok c8Partial, some c8Partial) ∧
    c8Partial.streaminfo ≠ none := by
  refine ⟨by decide, by decide, by decide⟩

/-- C8 (amended): a `load` failure after the magic check leaves the
partially built dictionary in `_metadata` (here holding the STREAMINFO
decoded before the fatal type-127 block), and the `metadata` property then
returns that partial dictionary instead of reloading or failing. -/
theorem C8_amended_failed_load_caches_partial :
    load c8Input false true = .error (.invalidBlockType, some c8Partial) ∧
    stateAfterLoad c8Input false true = some c8Partial ∧
    metadataProp (some c8Partial) c8Input false true =
      (.ok c8Partial, some c8Partial) := by
  refine ⟨by decide, by decide, by decide⟩

/-- C6: the claim says every index point of every track has its 3 reserved
bytes checked (validate on), not only the first index point.  On
`c6Input 0 0 1` — a cue sheet whose *second* index point has reserved bytes
`(0,0,1)` — `load` with `validate=true` accepts the block. -/
theorem C6_second_index_reserved_accepted :
    load (c6Input 0 0 1) false true = .ok { cuesheet := some c6CueSheet } := by
  decide

set_option maxHeartbeats 4000000 in
/-- C6 (amended): the reserved-bytes check covers the cue-sheet header,
each track record, and only the *first* index point of each track.  The
reserved bytes of any later index point are never read: `load` accepts
`c6Input r1 r2 r3` for all values of the second index point's reserved
bytes, while the same sheet with the first index point's reserved bytes
`(0,0,1)` is rejected with the CUESHEET_TRACK_INDEX reserved error. -/
theorem C6_amended_only_first_index_reserved_checked :
    (∀ r1 r2 r3 : Nat,
      load (c6Input r1 r2 r3) false true = .ok { cuesheet := some c6CueSheet }) ∧
    load c6FirstBadInput false true =
      .error (.cueSheetReservedIndex, some { cuesheet := some c6CueSheet }) := by
  refine ⟨fun r1 r2 r3 => by with_unfolding_all rfl, by decide⟩

/-- C2: the claim says a seek table with first-sample numbers
`(0, 0xFFFFFFFFFFFFFFFF, 44100)` is accepted with `validate=true`.  The
check of lines 553-557 requires, for each adjacent pair, the earlier sample
below the later or the later equal to the placeholder; the pair
`(0xFFFFFFFFFFFFFFFF, 44100)` satisfies neither disjunct, so `load` raises
the invalid-seek-table error (after the table was already stored). -/
theorem C2_placeholder_middle_rejected :
    load c2Input false true =
      .error (.invalidSeekTable,
        some { seektable := some
                 [(0, 0, 0), (0xFFFFFFFFFFFFFFFF, 0, 0), (44100, 0, 0)] }) := by
  decide

/-- C2 (amended): the general rule of the claim does hold: a seek table in
which every adjacent pair has the earlier first-sample strictly below the
later one, or the later one equal to the placeholder, passes the validator
(`seekTableOK`, the `all(...)` of lines 553-557).  But the particular table
`(0, placeholder, 44100)` violates that rule and is rejected; a reordered
table `(0, 44100, placeholder)` is accepted. -/
theorem C2_amended_adjacent_or_placeholder :
    (∀ t : List SeekPoint,
      List.Chain' (fun p q => p.1 < q.1 ∨ q.1 = 0xFFFFFFFFFFFFFFFF) t →
      seekTableOK t = true) ∧
    load c2OkInput false true =
      .ok { seektable := some
              [(0, 0, 0), (44100, 0, 0), (0xFFFFFFFFFFFFFFFF, 0, 0)] } := by
  constructor
  · intro t h
    induction t with
    | nil => rfl
    | cons p rest ih =>
      cases rest with
      | nil => rfl
      | cons q rest2 =>
        rw [List.chain'_cons] at h
        have h2 := ih h.2
        show ((decide (p.1 < q.1) || decide (q.1 = 0xFFFFFFFFFFFFFFFF)) &&
          seekTableOK (q :: rest2)) = true
        rw [h2, Bool.and_true]
        rcases h.1 with h1 | h1
        · simp [h1]
        · simp [h1]
  · decide

/-- C2 (witness): the adjacent-pair rule applied to the concrete reordered
table. -/
theorem C2_amended_adjacent_or_placeholder_witness :
    seekTableOK [(0, 0, 0), (44100, 0, 0), (0xFFFFFFFFFFFFFFFF, 0, 0)] = true :=
  C2_amended_adjacent_or_placeholder.1 _ (by norm_num [List.chain'_cons])

/-- C9: whenever a PICTURE block body decodes successfully, a mime type
equal to the literal `"-->"` makes the `data` field the UTF-8 decoding of
the remaining block bytes (a URL), and any other mime type leaves it as the
raw bytes; on the concrete `c9Input` the decoded picture's data is the
string `"https://example/cover.jpg"`. -/
theorem C9_picture_url_form :
    (∀ (bd : List Nat) (pic : APICFrame), decodePicture bd = .ok pic →
      (pic.mime_type = "-->" →
        ∃ cs, utf8DecodeList (pictureDataBytes bd) = some cs ∧
          pic.data = .url (String.mk cs)) ∧
      (pic.mime_type ≠ "-->" → pic.data = .raw (pictureDataBytes bd))) ∧
    load c9Input false true = .ok { pictures := some [c9Pic] } := by
  constructor
  · intro bd pic h
    unfold decodePicture at h
    dsimp only at h
    split at h
    next => exact absurd h (by simp)
    next mimeCs hmime =>
      split at h
      next => exact absurd h (by simp)
      next descCs hdesc =>
        split at h
        next => exact absurd h (by simp)
        next pd hpd =>
          injection h with h
          subst h
          by_cases hc : String.mk mimeCs = "-->"
          · rw [if_pos hc] at hpd
            constructor
            · intro _
              rcases Option.map_eq_some'.mp hpd with ⟨cs, hcs, hurl⟩
              exact ⟨cs, hcs, by simp [← hurl]⟩
            · intro hne
              exact absurd hc hne
          · rw [if_neg hc] at hpd
            constructor
            · intro heq
              exact absurd heq hc
            · intro _
              injection hpd with hpd
              simp [← hpd]
  · decide

/-- C9 (witness): the URL case of the picture decoder evaluated on the
concrete block body with mime type `"-->"` and data
`https://example/cover.jpg`. -/
theorem C9_picture_url_form_witness :
    ∃ cs, utf8DecodeList (pictureDataBytes c9Body) = some cs ∧
      c9Pic.data = .url (String.mk cs) :=
  (C9_picture_url_form.1 c9Body c9Pic (by decide)).1 (by decide)

/-- C10: with `tags_only=true` and `validate=true` the structural
block-size checks still run on blocks that are skipped, because each check
precedes the `if tags_only: continue` in its `match` arm: a STREAMINFO
block whose declared size is not 34, an APPLICATION block whose size minus
4 is not a multiple of 8 (Python `%` on a possibly negative left operand),
or a SEEKTABLE block whose size is not a multiple of 18 each abort `load`
with the corresponding error. -/
theorem C10_structural_checks_run_when_skipped :
    (∀ s1 s2 s3 : Nat, fromBE [s1, s2, s3] ≠ 34 →
      load (flacMagic ++ [0x80, s1, s2, s3]) true true =
        .error (.invalidStreamInfoSize, some {})) ∧
    (∀ s1 s2 s3 : Nat, ((fromBE [s1, s2, s3] : Int) - 4) % 8 ≠ 0 →
      load (flacMagic ++ [0x82, s1, s2, s3]) true true =
        .error (.invalidApplicationSize, some {})) ∧
    (∀ s1 s2 s3 : Nat, fromBE [s1, s2, s3] % 18 ≠ 0 →
      load (flacMagic ++ [0x83, s1, s2, s3]) true true =
        .error (.invalidSeekTableSize, some {})) := by
  refine ⟨?_, ?_, ?_⟩
  · intro s1 s2 s3 h
    show (match (loadLoop true true (8 + 1) [0x80, s1, s2, s3] {} :
            Except (LoadError × Metadata) Metadata) with
          | .ok m => .ok m
          | .error (e, m) => .error (e, some m)) =
      Except.error (.invalidStreamInfoSize, some {})
    unfold loadLoop
    dsimp only [List.take, List.drop]
    rw [if_pos ⟨rfl, h⟩]
    rfl
  · intro s1 s2 s3 h
    show (match (loadLoop true true (8 + 1) [0x82, s1, s2, s3] {} :
            Except (LoadError × Metadata) Metadata) with
          | .ok m => .ok m
          | .error (e, m) => .error (e, some m)) =
      Except.error (.invalidApplicationSize, some {})
    unfold loadLoop
    dsimp only [List.take, List.drop]
    rw [if_pos ⟨rfl, h⟩]
    rfl
  · intro s1 s2 s3 h
    show (match (loadLoop true true (8 + 1) [0x83, s1, s2, s3] {} :
            Except (LoadError × Metadata) Metadata) with
          | .ok m => .ok m
          | .error (e, m) => .error (e, some m)) =
      Except.error (.invalidSeekTableSize, some {})
    unfold loadLoop
    dsimp only [List.take, List.drop]
    rw [if_pos ⟨rfl, h⟩]
    rfl

/-- C10 (witness): the three checks fired on concrete declared sizes 33, 5
and 17. -/
theorem C10_structural_checks_run_when_skipped_witness :
    load (flacMagic ++ [0x80, 0, 0, 33]) true true =
      .error (.invalidStreamInfoSize, some {}) ∧
    load (flacMagic ++ [0x82, 0, 0, 5]) true true =
      .error (.invalidApplicationSize, some {}) ∧
    load (flacMagic ++ [0x83, 0, 0, 17]) true true =
      .error (.invalidSeekTableSize, some {}) :=
  ⟨C10_structural_checks_run_when_skipped.1 0 0 33 (by decide),
   C10_structural_checks_run_when_skipped.2.1 0 0 5 (by decide),
   C10_structural_checks_run_when_skipped.2.2 0 0 17 (by decide)⟩
